import Mathlib

set_option maxRecDepth 16384
set_option maxHeartbeats 1000000

/-!
Shallow embedding of the BitacoraApp classroom-attendance application
(`src/js/*.js`) and verification of the frozen claims about it.

JavaScript objects and `Map`s are modelled as association lists
(`List (String × α)`) with insertion-order-preserving update, matching
JS object/`Map` iteration semantics.  JS strings are Lean `String`s.
Wall-clock-dependent checks (`Validators.validateDate`) are abstracted
as an oracle parameter `dateOk : String → Bool`.
-/

namespace Bitacora

/-! ### Association-list primitives (JS object / Map semantics) -/

/-- Lookup of a key in a JS object / `Map`: the first binding wins
(association lists built by `setA` never hold duplicate keys). -/
def lookupA (l : List (String × α)) (k : String) : Option α :=
  (l.find? (fun p => p.1 = k)).map (·.2)

/-- JS `obj[k] = v` / `Map.set`: replace the value at an existing key in
place (preserving insertion order), else append a new binding. -/
def setA (l : List (String × α)) (k : String) (v : α) : List (String × α) :=
  match l with
  | [] => [(k, v)]
  | p :: rest => if p.1 = k then (k, v) :: rest else p :: setA rest k v

/-! ### Character-level string primitives

The JS string operations used by the code (`trim`, `substring`,
`startsWith`, `split`) are modelled structurally over `String.data` so
that every definition evaluates by kernel reduction. -/

/-- The whitespace characters of JS `String.prototype.trim` and of the
regex class `\s` that occur in this application's data. -/
def jsWhitespace (c : Char) : Bool :=
  c = ' ' || c = '\t' || c = '\n' || c = '\r'

def trimLeftChars : List Char → List Char
  | [] => []
  | c :: cs => if jsWhitespace c then trimLeftChars cs else c :: cs

/-- JS `s.trim()`. -/
def jsTrim (s : String) : String :=
  String.mk (trimLeftChars ((trimLeftChars s.data.reverse).reverse))

/-- JS `s.substring(0, n)`. -/
def takeChars (s : String) (n : Nat) : String :=
  String.mk (s.data.take n)

/-- JS `s.startsWith(pre)`. -/
def startsWithStr (s pre : String) : Bool :=
  pre.data.isPrefixOf s.data

/-- JS `s.split(sep)` for a one-character separator. -/
def splitChar (c : Char) : List Char → List (List Char)
  | [] => [[]]
  | x :: xs =>
    match splitChar c xs with
    | [] => [[]]
    | g :: gs => if x = c then [] :: g :: gs else (x :: g) :: gs

/-! ### CONFIG (`src/js/config.js`) -/

namespace CONFIG

def MAX_TEXT_LENGTH : Nat := 1000
def MAX_COMMENT_LENGTH : Nat := 500
def MAX_STUDENT_NAME_LENGTH : Nat := 100

/-- Models `CONFIG.STORAGE_PREFIX` (renamed here to avoid clashing with a Lean
keyword): namespace put in front of every persisted key. -/
def STORAGE_NS : String := "bitacora_v2_"

def MAX_STORAGE_SIZE : Nat := 5 * 1024 * 1024

/-- Models `Object.values(CONFIG.STUDENT_STATES)`. -/
def STUDENT_STATES : List String := ["presente", "ausente", "tarde"]

/-- Models `Object.values(CONFIG.COMMENT_TYPES)`. -/
def COMMENT_TYPES : List String :=
  ["general", "ausente", "tarde", "salidaBano", "enfermeria", "otro"]

def EVALUATION_AGREEMENT : List String :=
  ["De Acuerdo", "Parcialmente de acuerdo", "Parcialmente en desacuerdo", "En desacuerdo"]

def EVALUATION_QUALITY : List String :=
  ["Excelente", "Bueno", "Regular", "Deficiente"]

def EVALUATION_TIME : List String :=
  ["Suficiente", "Adecuado", "Moderado", "Insuficiente"]

end CONFIG

/-! ### SecurityUtils (`src/js/security.js`) -/

namespace SecurityUtils

/-- Models `sanitizeInput(input, maxLength)`: empty/non-string input yields `""`,
otherwise trim whitespace at both ends and truncate to `maxLength`. -/
def sanitizeInput (input : String) (maxLength : Nat) : String :=
  if input = "" then "" else takeChars (jsTrim input) maxLength

/-- Models `sanitizeAttribute(attr)`: delete the characters `' " < > &`. -/
def sanitizeAttribute (attr : String) : String :=
  String.mk (attr.data.filter (fun c => !(c = '\'' || c = '"' || c = '<' || c = '>' || c = '&')))

end SecurityUtils

/-! ### Validators (`src/js/validators.js`) -/

/-- The `{valid, value|message}` result shape every validator returns. -/
inductive ValidationResult where
  | ok (value : String)
  | err (message : String)
deriving DecidableEq, Repr

def ValidationResult.isValid : ValidationResult → Bool
  | .ok _ => true
  | .err _ => false

def ValidationResult.valueD : ValidationResult → String
  | .ok v => v
  | .err _ => ""

def ValidationResult.messageD : ValidationResult → String
  | .ok _ => ""
  | .err m => m

namespace Validators

/-- The accented letters accepted by `validateStudentName`'s character
class `[a-zA-ZáéíóúÁÉÍÓÚñÑüÜ\s]`. -/
def nameAccentChars : List Char :=
  ['á', 'é', 'í', 'ó', 'ú', 'Á', 'É', 'Í', 'Ó', 'Ú', 'ñ', 'Ñ', 'ü', 'Ü']

def nameCharOk (c : Char) : Bool :=
  (('a' ≤ c && c ≤ 'z') || ('A' ≤ c && c ≤ 'Z')) || nameAccentChars.contains c || jsWhitespace c

/-- Models `Validators.validateStudentName(name)`. -/
def validateStudentName (name : String) : ValidationResult :=
  if name = "" then .err "El nombre es requerido"
  else
    let sanitized := SecurityUtils.sanitizeInput name CONFIG.MAX_STUDENT_NAME_LENGTH
    if sanitized.length < 2 then .err "El nombre debe tener al menos 2 caracteres"
    else if !(sanitized.data.all nameCharOk) then
      .err "El nombre solo puede contener letras y espacios"
    else .ok sanitized

/-- Hour part of the regex `^([01]?[0-9]|2[0-3]):[0-5][0-9]$`. -/
def hourOk : List Char → Bool
  | [c] => c.isDigit
  | [c1, c2] => ((c1 = '0' || c1 = '1') && c2.isDigit) || (c1 = '2' && ('0' ≤ c2 && c2 ≤ '3'))
  | _ => false

/-- Minute part of the regex `^([01]?[0-9]|2[0-3]):[0-5][0-9]$`. -/
def minuteOk : List Char → Bool
  | [c1, c2] => ('0' ≤ c1 && c1 ≤ '5') && c2.isDigit
  | _ => false

/-- Models `Validators.validateTime(time)`. -/
def validateTime (time : String) : ValidationResult :=
  if time = "" then .err "La hora es requerida"
  else
    match splitChar ':' time.data with
    | [h, m] =>
      if hourOk h && minuteOk m then .ok time
      else .err "Formato de hora inválido (HH:MM)"
    | _ => .err "Formato de hora inválido (HH:MM)"

/-- The regex `^[0-9]+[A-Z]$` of `validateGroup`. -/
def groupShapeOk (s : String) : Bool :=
  match s.data.reverse with
  | last :: rest => !rest.isEmpty && rest.all Char.isDigit && last.isUpper
  | [] => false

/-- Models `Validators.validateGroup(group)`. -/
def validateGroup (group : String) : ValidationResult :=
  if group = "" then .err "Debe seleccionar un grupo"
  else
    let sanitized := SecurityUtils.sanitizeInput group 10
    if !groupShapeOk sanitized then .err "Formato de grupo inválido"
    else .ok sanitized

/-- The accented letters of `validateComment`'s alphanumeric-content
regex `[a-zA-ZáéíóúÁÉÍÓÚñÑ0-9]` (note: no `ü`/`Ü` here, unlike names). -/
def commentAccentChars : List Char :=
  ['á', 'é', 'í', 'ó', 'ú', 'Á', 'É', 'Í', 'Ó', 'Ú', 'ñ', 'Ñ']

def commentContentChar (c : Char) : Bool :=
  (('a' ≤ c && c ≤ 'z') || ('A' ≤ c && c ≤ 'Z')) || c.isDigit || commentAccentChars.contains c

/-- Models `Validators.validateComment(comment)`. -/
def validateComment (comment : String) : ValidationResult :=
  if comment = "" then .err "El comentario no puede estar vacío"
  else
    let sanitized := SecurityUtils.sanitizeInput comment CONFIG.MAX_COMMENT_LENGTH
    if sanitized.length < 3 then .err "El comentario debe tener al menos 3 caracteres"
    else if !(sanitized.data.any commentContentChar) then
      .err "El comentario debe contener texto válido"
    else .ok sanitized

/-- Models `Validators.validateDate(date)` depends on the wall clock (rejects
future dates and dates more than one year old); the clock-relative part
is abstracted as the oracle `dateOk`.  The empty-input guard is kept. -/
def validateDate (dateOk : String → Bool) (date : String) : ValidationResult :=
  if date = "" then .err "La fecha es requerida"
  else if dateOk date then .ok date
  else .err "Formato de fecha inválido"

end Validators

/-! ### Data model (session records, statistics records) -/

/-- A per-student comment inside a session (`{text, type, timestamp, id}`;
the timestamp and id play no role in the verified operations). -/
structure Comment where
  text : String
  type : String
deriving DecidableEq, Repr

/-- Models `StudentRecord`: one student's per-session data. -/
structure StudentData where
  estado : String
  bano : Bool
  enfermeria : Bool
  otro : Bool
  apoyosEducativos : Bool
  comentarios : List Comment
deriving DecidableEq, Repr

/-- The five-field `evaluation` record of a session. -/
structure EvaluationRecord where
  activityAccessibility : String
  classMaterials : String
  physicalSpace : String
  studentInvolvement : String
  studentAttitude : String
deriving DecidableEq, Repr

/-- The defaults assigned in `SessionManager.createSession`. -/
def defaultEvaluation : EvaluationRecord :=
  ⟨"De Acuerdo", "De Acuerdo", "De Acuerdo", "Bueno", "Bueno"⟩

/-- A session record as built by `createSession` and as (de)serialized to
storage.  `grupo = ""` models a missing/empty (JS-falsy) group;
`students = none` models a record without a `students` key;
`lastSaved = none` models JSON `null`.  `extras` holds properties
assigned dynamically through `updateSessionField`'s default branch. -/
structure SessionData where
  id : String
  grupo : String
  fecha : String
  startTime : String
  students : Option (List (String × StudentData))
  lessonContent : String
  planningComment : String
  lessonProgress : String
  observations : String
  improvementProposals : String
  activityTime : String
  evaluation : EvaluationRecord
  createdAt : String
  lastSaved : Option String
  extras : List (String × String)
deriving DecidableEq, Repr

/-- A date-stamped comment in a student's statistics history. -/
structure StatsComment where
  fecha : String
  texto : String
  tipo : String
deriving DecidableEq, Repr

/-- Per-student cumulative statistics counters. -/
structure StudentStats where
  presente : Nat
  ausente : Nat
  tarde : Nat
  bano : Nat
  enfermeria : Nat
  otro : Nat
  totalSesiones : Nat
  comentarios : List StatsComment
deriving DecidableEq, Repr

/-- The zero-initialised counters created for a newly seen student. -/
def StudentStats.init : StudentStats := ⟨0, 0, 0, 0, 0, 0, 0, []⟩

abbrev GroupsMap := List (String × List String)
abbrev StatsMap := List (String × List (String × StudentStats))

/-- A value in the app-level view of the persistent store.  The JS code
stores JSON strings; this typed view models the parsed values per key
family (serialization round-trips; the raw string/size level is modelled
separately for the `StorageService` claims). -/
inductive StoredValue where
  | sess (s : SessionData)
  | groupsData (g : GroupsMap)
  | statsData (m : StatsMap)
deriving DecidableEq, Repr

abbrev Store := List (String × StoredValue)

def storeGetSession (store : Store) (key : String) : Option SessionData :=
  match lookupA store key with
  | some (.sess s) => some s
  | _ => none

/-- The combined mutable state of the app's managers plus the app-level
store.  The app-level store is taken as available and within the size
cap (set succeeds); unavailability/overflow is modelled at the raw
`StorageService` level. -/
structure AppState where
  store : Store
  groups : GroupsMap
  currentStudents : List (String × StudentData)
  currentSession : Option SessionData
  isDirty : Bool
  stats : StatsMap
deriving DecidableEq, Repr

/-! ### StudentManager (`src/js/student-manager.js`) -/

namespace StudentManager

/-- Models `getStudentsInGroup`: validates the group name (throws on failure,
modelled as `none`) and returns the roster or `[]`. -/
def getStudentsInGroup (groups : GroupsMap) (groupName : String) : Option (List String) :=
  match Validators.validateGroup groupName with
  | .err _ => none
  | .ok g => some ((lookupA groups g).getD [])

/-- The initial `StudentRecord` created for each roster name. -/
def freshStudent : StudentData := ⟨"presente", false, false, false, false, []⟩

/-- Models `initializeStudentsForSession`: fresh records for every roster name
(the error path returns an empty map). -/
def initializeStudentsForSession (groups : GroupsMap) (groupName : String) :
    List (String × StudentData) :=
  match getStudentsInGroup groups groupName with
  | none => []
  | some students => students.foldl (fun m n => setA m n freshStudent) []

/-- The cleaning `loadStudentsData` applies to each stored record. -/
def cleanStudent (d : StudentData) : StudentData :=
  { estado := if CONFIG.STUDENT_STATES.contains d.estado then d.estado else "presente",
    bano := d.bano, enfermeria := d.enfermeria, otro := d.otro,
    apoyosEducativos := d.apoyosEducativos,
    comentarios := d.comentarios.filter (fun c => (Validators.validateComment c.text).isValid) }

/-- Models `loadStudentsData`: rebuild `currentStudents` from a stored students
mapping, skipping invalid names and sanitising each record. -/
def loadStudentsData (studentsData : List (String × StudentData)) :
    List (String × StudentData) :=
  studentsData.foldl (fun m p =>
    match Validators.validateStudentName p.1 with
    | .err _ => m
    | .ok n => setA m n (cleanStudent p.2)) []

end StudentManager

/-! ### Import validation (`Validators.validateImportedGroups`) -/

structure ImportValidation where
  valid : Bool
  errors : List String
  validGroups : GroupsMap
deriving DecidableEq, Repr

namespace Validators

/-- Per-group body of `validateImportedGroups`' loop: collect error
messages and the group's valid student names. -/
def importGroupStep (groupName : String) (students : List String) :
    List String × List String :=
  students.enum.foldl (fun (a : List String × List String) (p : Nat × String) =>
    match validateStudentName p.2 with
    | .err m =>
      (a.1 ++ ["Grupo \"" ++ groupName ++ "\", estudiante " ++ toString (p.1 + 1) ++ ": " ++ m],
       a.2)
    | .ok v => (a.1, a.2 ++ [v])) ([], [])

/-- Models `Validators.validateImportedGroups(data)` on an object input (the
top-level non-object / array branch is outside this typed model; the
non-array-students branch is likewise unreachable here). -/
def validateImportedGroups (data : List (String × List String)) : ImportValidation :=
  let r := data.foldl (fun (acc : List String × GroupsMap) entry =>
    match validateGroup entry.1 with
    | .err m => (acc.1 ++ ["Grupo \"" ++ entry.1 ++ "\": " ++ m], acc.2)
    | .ok g =>
      if entry.2.isEmpty then
        (acc.1 ++ ["Grupo \"" ++ entry.1 ++ "\": no puede estar vacío"], acc.2)
      else
        let res := importGroupStep entry.1 entry.2
        (acc.1 ++ res.1,
         if !res.2.isEmpty then setA acc.2 g res.2 else acc.2)) ([], [])
  { valid := r.1.isEmpty, errors := r.1, validGroups := r.2 }

/-- The `{valid, errors}` result of `validateSessionData`; the JS errors
object is modelled as the list of its messages in insertion order. -/
structure SessionValidation where
  valid : Bool
  errors : List String
deriving DecidableEq, Repr

/-- Models `Validators.validateSessionData(sessionData)`. -/
def validateSessionData (dateOk : String → Bool) (sd : SessionData) : SessionValidation :=
  let e1 := match validateGroup sd.grupo with | .err m => [m] | .ok _ => []
  let e2 := match validateDate dateOk sd.fecha with | .err m => [m] | .ok _ => []
  let e3 := match validateTime sd.startTime with | .err m => [m] | .ok _ => []
  let e4 := match sd.students with
    | none => ["Datos de estudiantes inválidos"]
    | some students => students.foldl (fun acc p =>
        match validateStudentName p.1 with
        | .err m => acc ++ [m]
        | .ok _ =>
          let acc := if CONFIG.STUDENT_STATES.contains p.2.estado then acc
                     else acc ++ ["Estado de estudiante inválido"]
          acc ++ (p.2.comentarios.filterMap (fun c =>
            match validateComment c.text with
            | .err m => some m
            | .ok _ => none))) []
  let errors := e1 ++ e2 ++ e3 ++ e4
  { valid := errors.isEmpty, errors := errors }

end Validators

namespace StudentManager

/-- Models `StudentManager.saveGroups`: persists the groups map (the app-level
store write succeeds). -/
def saveGroups (groups : GroupsMap) (store : Store) : Store × Bool :=
  (setA store "groups" (.groupsData groups), true)

/-- Models `StudentManager.importGroups(groupsData)`: whole-structure validation
first; any error throws (caught, `false`, nothing committed).  On a clean
validation the candidate map replaces the groups and is persisted;
`saveGroups` succeeds in the app-level store model, so the
backup-restore branch is unreachable here. -/
def importGroups (st : AppState) (groupsData : GroupsMap) : AppState × Bool :=
  let validation := Validators.validateImportedGroups groupsData
  if !validation.valid then (st, false)
  else
    let groups := validation.validGroups
    let (store, saved) := saveGroups groups st.store
    if saved then ({ st with groups := groups, store := store }, true)
    else (st, false)

end StudentManager

/-! ### StatisticsManager (`src/js/statistics.js`) -/

namespace StatisticsManager

/-- Models `studentStats[studentData.estado]++`: dynamic property increment.
Any string other than a tracked counter name creates an untracked NaN
property in JS and leaves every tracked counter unchanged. -/
def bumpByName (s : StudentStats) (name : String) : StudentStats :=
  if name = "presente" then { s with presente := s.presente + 1 }
  else if name = "ausente" then { s with ausente := s.ausente + 1 }
  else if name = "tarde" then { s with tarde := s.tarde + 1 }
  else if name = "bano" then { s with bano := s.bano + 1 }
  else if name = "enfermeria" then { s with enfermeria := s.enfermeria + 1 }
  else if name = "otro" then { s with otro := s.otro + 1 }
  else if name = "totalSesiones" then { s with totalSesiones := s.totalSesiones + 1 }
  else s

/-- The counter increments `updateFromSession` applies to one student's
existing statistics record `cur`: the state-named counter, the three
incident flags, `totalSesiones`, and the date-stamped comment history. -/
def updatedStudent (fecha : String) (cur : StudentStats) (d : StudentData) : StudentStats :=
  let s := bumpByName cur d.estado
  let s := if d.bano then { s with bano := s.bano + 1 } else s
  let s := if d.enfermeria then { s with enfermeria := s.enfermeria + 1 } else s
  let s := if d.otro then { s with otro := s.otro + 1 } else s
  let s := { s with totalSesiones := s.totalSesiones + 1 }
  let newComments := (d.comentarios.filter (fun c => c.text ≠ "")).map (fun c =>
    StatsComment.mk fecha (SecurityUtils.sanitizeInput c.text CONFIG.MAX_COMMENT_LENGTH)
      (if c.type = "" then "general" else c.type))
  { s with comentarios := s.comentarios ++ newComments }

/-- Body of `updateFromSession`'s per-student loop (the absent-student
case starts from the zero-initialised record, as the `has` check does). -/
def updateOneStudent (fecha : String) (gs : List (String × StudentStats))
    (p : String × StudentData) : List (String × StudentStats) :=
  setA gs p.1 (updatedStudent fecha ((lookupA gs p.1).getD StudentStats.init) p.2)

/-- Models `StatisticsManager.saveStatistics`: converts the map-of-maps to plain
objects and writes it under the `statistics` key (the app-level store
write succeeds). -/
def saveStatistics (stats : StatsMap) (store : Store) : Store × Bool :=
  (setA store "statistics" (.statsData stats), true)

/-- Models `StatisticsManager.updateFromSession(sessionData)`: throws (caught,
`false`, no mutation) when `grupo` is falsy or `students` is missing;
otherwise increments each student's counters and persists the table. -/
def updateFromSession (stats : StatsMap) (store : Store) (sd : SessionData) :
    StatsMap × Store × Bool :=
  if sd.grupo = "" || sd.students = none then (stats, store, false)
  else
    let students := sd.students.getD []
    let groupStats := (lookupA stats sd.grupo).getD []
    let groupStats := students.foldl (updateOneStudent sd.fecha) groupStats
    let stats := setA stats sd.grupo groupStats
    let (store, okFlag) := saveStatistics stats store
    (stats, store, okFlag)

/-- A `{nombre, valor}` entry of the top-by-metric lists.  The
display-only `porcentaje` string (`toFixed(1)` formatting) is
presentation output and is not modelled. -/
structure TopStudent where
  nombre : String
  valor : Nat
deriving DecidableEq, Repr

structure GroupSummary where
  totalEstudiantes : Nat
  totalSesiones : Nat
  totalPresentes : Nat
  totalAusentes : Nat
  totalTardes : Nat
  totalBano : Nat
  totalEnfermeria : Nat
  totalOtro : Nat
  promedioAsistencia : ℚ
  estudiantesConMasAusencias : List TopStudent
  estudiantesConMasTardanzas : List TopStudent
deriving DecidableEq, Repr

/-- Models `StatisticsManager.getEmptyGroupSummary`. -/
def getEmptyGroupSummary : GroupSummary := ⟨0, 0, 0, 0, 0, 0, 0, 0, 0, [], []⟩

/-- Stable insertion of one entry into a list sorted descending by
`metric` (the earlier element stays in front of equals, matching the
stable `Array.prototype.sort` comparator `b - a`). -/
def insertDesc (metric : StudentStats → Nat) (x : String × StudentStats) :
    List (String × StudentStats) → List (String × StudentStats)
  | [] => [x]
  | y :: ys => if metric y.2 > metric x.2 then y :: insertDesc metric x ys else x :: y :: ys

def sortByMetricDesc (metric : StudentStats → Nat) :
    List (String × StudentStats) → List (String × StudentStats)
  | [] => []
  | x :: xs => insertDesc metric x (sortByMetricDesc metric xs)

/-- Models `StatisticsManager.getTopStudentsByMetric(groupStats, metric, limit)`. -/
def getTopStudentsByMetric (groupStats : List (String × StudentStats))
    (metric : StudentStats → Nat) (limit : Nat) : List TopStudent :=
  ((sortByMetricDesc metric (groupStats.filter (fun p => metric p.2 > 0))).take limit).map
    (fun p => ⟨p.1, metric p.2⟩)

/-- Models `StatisticsManager.calculateGroupSummary(groupStats)`. -/
def calculateGroupSummary (groupStats : List (String × StudentStats)) : GroupSummary :=
  if groupStats.isEmpty then getEmptyGroupSummary
  else
    let totalEstudiantes := groupStats.length
    let maxSesiones := groupStats.foldl (fun m p => max m p.2.totalSesiones) 0
    let totalPresentes := (groupStats.map (·.2.presente)).sum
    let totalPosibleAsistencias := totalEstudiantes * maxSesiones
    { totalEstudiantes := totalEstudiantes,
      totalSesiones := maxSesiones,
      totalPresentes := totalPresentes,
      totalAusentes := (groupStats.map (·.2.ausente)).sum,
      totalTardes := (groupStats.map (·.2.tarde)).sum,
      totalBano := (groupStats.map (·.2.bano)).sum,
      totalEnfermeria := (groupStats.map (·.2.enfermeria)).sum,
      totalOtro := (groupStats.map (·.2.otro)).sum,
      promedioAsistencia :=
        if totalPosibleAsistencias > 0 then
          ((totalPresentes : ℚ) / (totalPosibleAsistencias : ℚ)) * 100
        else 0,
      estudiantesConMasAusencias := getTopStudentsByMetric groupStats (·.ausente) 5,
      estudiantesConMasTardanzas := getTopStudentsByMetric groupStats (·.tarde) 5 }

/-- Models `StatisticsManager.getGroupStatistics(groupName)` (error paths aside,
which also yield the empty result). -/
def getGroupStatistics (stats : StatsMap) (groupName : String) :
    List (String × StudentStats) × GroupSummary :=
  match lookupA stats groupName with
  | none => ([], getEmptyGroupSummary)
  | some groupStats => (groupStats, calculateGroupSummary groupStats)

/-- The `totalSesiones` counter recorded for a student of a group, `0`
when absent. -/
def statTotal (stats : StatsMap) (grupo nombre : String) : Nat :=
  ((lookupA ((lookupA stats grupo).getD []) nombre).map (·.totalSesiones)).getD 0

end StatisticsManager

/-! ### SessionManager (`src/js/session-manager.js`) -/

namespace SessionManager

def sessionKey (grupo fecha : String) : String := "session_" ++ grupo ++ "_" ++ fecha

/-- JS truthiness of a nullable string (`null`/`""` are falsy). -/
def truthyStr : Option String → Bool
  | none => false
  | some s => !(s == "")

/-- Models `SessionManager.saveSession(showNotification)`: refreshes the student
mapping from the manager, stamps `lastSaved`, writes the session under
its key and triggers `StatisticsManager.updateFromSession` through the
app singleton.  The current timestamp is the `now` parameter. -/
def saveSession (st : AppState) (now : String) : AppState × Bool :=
  match st.currentSession with
  | none => (st, false)
  | some cs =>
    let cs := { cs with students := some st.currentStudents, lastSaved := some now }
    let key := sessionKey cs.grupo cs.fecha
    let store := setA st.store key (.sess cs)
    let r := StatisticsManager.updateFromSession st.stats store cs
    ({ st with currentSession := some cs, store := r.2.1, stats := r.1, isDirty := false },
     true)

/-- Models `SessionManager.createSession(grupo, fecha, startTime)` followed by
its `loadExistingSession` step.  `newId` and `now` stand for
`generateSecureId` and the clock.  The `{ ...fresh, ...saved }` spread
merge: a stored session contains every session field (it is written
whole by `saveSession`), so when a saved session with truthy `lastSaved`
exists the merge yields the stored session wholesale. -/
def createSession (dateOk : String → Bool) (st : AppState)
    (grupo fecha startTime : String) (newId now : String) : AppState × Bool :=
  match Validators.validateGroup grupo, Validators.validateDate dateOk fecha,
        Validators.validateTime startTime with
  | .ok g, .ok f, .ok t =>
    let initialStudents := StudentManager.initializeStudentsForSession st.groups grupo
    let fresh : SessionData :=
      { id := newId, grupo := g, fecha := f, startTime := t,
        students := some initialStudents,
        lessonContent := "", planningComment := "", lessonProgress := "",
        observations := "", improvementProposals := "",
        activityTime := "Adecuado", evaluation := defaultEvaluation,
        createdAt := now, lastSaved := none, extras := [] }
    match storeGetSession st.store (sessionKey g f) with
    | some saved =>
      if truthyStr saved.lastSaved then
        ({ st with currentSession := some saved,
                   currentStudents := StudentManager.loadStudentsData (saved.students.getD []),
                   isDirty := false }, true)
      else
        ({ st with currentSession := some fresh, currentStudents := initialStudents,
                   isDirty := false }, true)
    | none =>
      ({ st with currentSession := some fresh, currentStudents := initialStudents,
                 isDirty := false }, true)
  | _, _, _ => (st, false)

def textFields : List String :=
  ["lessonContent", "planningComment", "lessonProgress", "observations", "improvementProposals"]

def setTextField (cs : SessionData) (field value : String) : SessionData :=
  if field = "lessonContent" then { cs with lessonContent := value }
  else if field = "planningComment" then { cs with planningComment := value }
  else if field = "lessonProgress" then { cs with lessonProgress := value }
  else if field = "observations" then { cs with observations := value }
  else { cs with improvementProposals := value }

def evalFieldNames : List String :=
  ["activityAccessibility", "classMaterials", "physicalSpace", "studentInvolvement",
   "studentAttitude"]

def setEvalField (e : EvaluationRecord) (name value : String) : EvaluationRecord :=
  if name = "activityAccessibility" then { e with activityAccessibility := value }
  else if name = "classMaterials" then { e with classMaterials := value }
  else if name = "physicalSpace" then { e with physicalSpace := value }
  else if name = "studentInvolvement" then { e with studentInvolvement := value }
  else if name = "studentAttitude" then { e with studentAttitude := value }
  else e

/-- Models `SessionManager.updateSessionField(field, value)`.  Free-text fields
are sanitized to 1000 chars; `activityTime` must be one of the TIME
options; an `evaluation.*` path must name an existing evaluation
subfield and its value is sanitized to 50 chars (with no option check);
any other field name becomes a dynamic property (`extras`). -/
def updateSessionField (st : AppState) (field value : String) : AppState × Bool :=
  match st.currentSession with
  | none => (st, false)
  | some cs =>
    if textFields.contains field then
      let v := SecurityUtils.sanitizeInput value CONFIG.MAX_TEXT_LENGTH
      ({ st with currentSession := some (setTextField cs field v), isDirty := true }, true)
    else if field = "activityTime" then
      if CONFIG.EVALUATION_TIME.contains value then
        ({ st with currentSession := some { cs with activityTime := value },
                   isDirty := true }, true)
      else (st, false)
    else if startsWithStr field "evaluation." then
      let evalField := String.mk (((splitChar '.' field.data).drop 1).headD [])
      if evalFieldNames.contains evalField then
        let v := SecurityUtils.sanitizeInput value 50
        ({ st with
             currentSession := some { cs with evaluation := setEvalField cs.evaluation evalField v },
             isDirty := true }, true)
      else (st, false)
    else
      ({ st with currentSession := some { cs with extras := setA cs.extras field value },
                 isDirty := true }, true)

/-- Models `SessionManager.loadSession(grupo, fecha)`: read by key, validate the
whole structure, replace the current session and student state only on
success. -/
def loadSession (dateOk : String → Bool) (st : AppState) (grupo fecha : String) :
    AppState × Bool :=
  match storeGetSession st.store (sessionKey grupo fecha) with
  | none => (st, false)
  | some saved =>
    if (Validators.validateSessionData dateOk saved).valid then
      ({ st with currentSession := some saved,
                 currentStudents := StudentManager.loadStudentsData (saved.students.getD []),
                 isDirty := false }, true)
    else (st, false)

end SessionManager

/-! ### Raw StorageService (`src/js/storage.js`)

The raw level models `localStorage` as a string-to-string map plus an
availability flag, with JSON (de)serialization made explicit, for the
claims about `set`'s size accounting and `get`'s fallback behaviour. -/

/-- JSON values (`JSON.stringify` input / `JSON.parse` output). -/
inductive Json where
  | null
  | bool (b : Bool)
  | num (n : Int)
  | str (s : String)
  | arr (xs : List Json)
  | obj (fields : List (String × Json))

/-- Models `JSON.stringify` escaping of one character inside a string literal
(the characters occurring in this development's data). -/
def jsonEscapeChar (c : Char) : List Char :=
  if c = '"' then ['\\', '"']
  else if c = '\\' then ['\\', '\\']
  else if c = '\n' then ['\\', 'n']
  else if c = '\t' then ['\\', 't']
  else if c = '\r' then ['\\', 'r']
  else [c]

/-- Models `JSON.stringify` of a string: quoted and escaped. -/
def jsonEscape (s : String) : String :=
  "\"" ++ String.mk (s.data.foldr (fun c acc => jsonEscapeChar c ++ acc) []) ++ "\""

mutual

/-- Models `JSON.stringify`. -/
def Json.serialize : Json → String
  | .null => "null"
  | .bool true => "true"
  | .bool false => "false"
  | .num n => toString n
  | .str s => jsonEscape s
  | .arr xs => "[" ++ Json.serializeElems xs ++ "]"
  | .obj fs => "\x7b" ++ Json.serializeFields fs ++ "\x7d"

/-- Comma-separated serialization of array elements. -/
def Json.serializeElems : List Json → String
  | [] => ""
  | [x] => Json.serialize x
  | x :: y :: xs => Json.serialize x ++ "," ++ Json.serializeElems (y :: xs)

/-- Comma-separated serialization of object fields. -/
def Json.serializeFields : List (String × Json) → String
  | [] => ""
  | [p] => jsonEscape p.1 ++ ":" ++ Json.serialize p.2
  | p :: q :: ps => jsonEscape p.1 ++ ":" ++ Json.serialize p.2 ++ "," ++ Json.serializeFields (q :: ps)

end

/-- The raw `localStorage` state: full (namespaced) keys mapped to stored
strings, plus the `isAvailable()` outcome. -/
structure RawStorage where
  avail : Bool
  entries : List (String × String)
deriving DecidableEq, Repr

namespace StorageService

/-- Models `StorageService.getStorageSize()`: sum of key length + stored-string
length over the keys carrying the app's namespace. -/
def getStorageSize (st : RawStorage) : Nat :=
  st.entries.foldl (fun total p =>
    if startsWithStr p.1 CONFIG.STORAGE_NS then total + p.1.length + p.2.length else total) 0

/-- Models `StorageService.hasSpace(data)`: `data` is the already-serialized
string, and the prospective size adds `JSON.stringify(data).length` — a
second serialization — with no account of the new key's length. -/
def hasSpace (st : RawStorage) (data : String) : Bool :=
  getStorageSize st + (Json.serialize (Json.str data)).length < CONFIG.MAX_STORAGE_SIZE

/-- Models `StorageService.set(key, value)`: throws when storage is unavailable
(`Except.error`); otherwise namespaces and sanitizes the key, serializes
the value, checks `hasSpace` before the write (returning `false` and
writing nothing when it fails), else writes and returns `true`. -/
def set (st : RawStorage) (key : String) (value : Json) :
    Except String (RawStorage × Bool) :=
  if !st.avail then .error "localStorage no está disponible"
  else
    let sanitizedKey := SecurityUtils.sanitizeAttribute (CONFIG.STORAGE_NS ++ key)
    let serializedValue := Json.serialize value
    if !hasSpace st serializedValue then .ok (st, false)
    else .ok ({ st with entries := setA st.entries sanitizedKey serializedValue }, true)

/-- Projection of `set`'s outcome (`none` = the call threw). -/
def setOutcome : Except String (RawStorage × Bool) → Option (RawStorage × Bool)
  | .ok r => some r
  | .error _ => none

/-- Models `StorageService.get(key, defaultValue)`: total function — the default
is returned when storage is unavailable, the key is absent, or parsing
fails.  `JSON.parse` is abstracted as the `parse` oracle (`none`
modelling a parse exception, caught by `get`). -/
def get (parse : String → Option Json) (st : RawStorage) (key : String)
    (defaultValue : Json) : Json :=
  if !st.avail then defaultValue
  else
    match lookupA st.entries (SecurityUtils.sanitizeAttribute (CONFIG.STORAGE_NS ++ key)) with
    | none => defaultValue
    | some item =>
      match parse item with
      | none => defaultValue
      | some v => v

/-- Modelled from the spec: the prospective total namespaced size the
claim about `set` describes — "the sum of (key length +
serialized-value length) over all namespaced keys including the new
entry" — for a key not already present in storage. -/
def specProspectiveSize (st : RawStorage) (key : String) (value : Json) : Nat :=
  getStorageSize st
    + (SecurityUtils.sanitizeAttribute (CONFIG.STORAGE_NS ++ key)).length
    + (Json.serialize value).length

end StorageService

/-! ### Concrete states used by the witnesses and counterexamples -/

def demoStudent : StudentData := StudentManager.freshStudent

/-- A minimal open session for group 9A with one student. -/
def demoSession : SessionData :=
  { id := "s1", grupo := "9A", fecha := "2024-03-01", startTime := "08:00",
    students := some [("Ana Lopez", demoStudent)],
    lessonContent := "", planningComment := "", lessonProgress := "",
    observations := "", improvementProposals := "",
    activityTime := "Adecuado", evaluation := defaultEvaluation,
    createdAt := "t0", lastSaved := none, extras := [] }

/-- An app state with `demoSession` open and empty store/statistics. -/
def demoState : AppState :=
  { store := [], groups := [("9A", ["Ana Lopez"])],
    currentStudents := [("Ana Lopez", demoStudent)],
    currentSession := some demoSession, isDirty := true, stats := [] }

/-- An app state with nothing stored and no session open. -/
def emptyState : AppState :=
  { store := [], groups := [], currentStudents := [], currentSession := none,
    isDirty := false, stats := [] }

/-- The C1 scenario: save, edit a narrative field, save again. -/
def stateAfterTwoSaves : AppState :=
  let st1 := (SessionManager.saveSession demoState "t1").1
  let st2 := (SessionManager.updateSessionField st1 "lessonContent" "Tema A").1
  (SessionManager.saveSession st2 "t2").1

/-- The C3 scenario: one group with one valid and one invalid student name. -/
def importMixed : GroupsMap := [("9A", ["Ana Lopez", "J"])]

/-- The C4 scenario: a previously saved session for 9A/2024-03-01 whose
stored roster (one student, Carlos Ruiz) differs from the group's
current roster (Ana Lopez, Beto Diaz). -/
def storedOldRoster : SessionData :=
  { demoSession with id := "old", students := some [("Carlos Ruiz", demoStudent)],
                     lastSaved := some "t1" }

def stateOldRoster : AppState :=
  { emptyState with store := [("session_9A_2024-03-01", .sess storedOldRoster)],
                    groups := [("9A", ["Ana Lopez", "Beto Diaz"])] }

/-- The C7 scenario: one stored entry of 5242857 bytes under a 13-byte
namespaced key, so the store holds 5242870 of the 5242880-byte cap. -/
def bigStoredVal : String := String.mk (List.replicate 5242857 'a')

def nearFullStorage : RawStorage :=
  { avail := true, entries := [("bitacora_v2_x", bigStoredVal)] }

/-- A 20-character key for the C7 `set` call. -/
def longKey : String := "kkkkkkkkkkkkkkkkkkkk"

/-- The C9 witness: one student seen in one session, present once. -/
def oneStudentStats : List (String × StudentStats) :=
  [("Ana Lopez", { presente := 1, ausente := 0, tarde := 0, bano := 0,
                   enfermeria := 0, otro := 0, totalSesiones := 1, comentarios := [] })]

/-! ## Theorems -/

/-! ### Association-list lemmas -/

theorem lookupA_nil (k : String) : lookupA ([] : List (String × α)) k = none := rfl

theorem lookupA_cons (p : String × α) (l : List (String × α)) (k : String) :
    lookupA (p :: l) k = if p.1 = k then some p.2 else lookupA l k := by
  by_cases h : p.1 = k <;> simp [lookupA, List.find?, h]

theorem lookupA_setA_self (l : List (String × α)) (k : String) (v : α) :
    lookupA (setA l k v) k = some v := by
  induction l with
  | nil => simp [setA, lookupA, List.find?]
  | cons p rest ih =>
    by_cases h : p.1 = k
    · simp [setA, h, lookupA_cons]
    · simp [setA, h, lookupA_cons, ih]

theorem lookupA_setA_ne (l : List (String × α)) (k k' : String) (v : α) (h : k ≠ k') :
    lookupA (setA l k v) k' = lookupA l k' := by
  induction l with
  | nil => simp [setA, lookupA_cons, lookupA_nil, h]
  | cons p rest ih =>
    by_cases hp : p.1 = k
    · simp [setA, hp, lookupA_cons, h, hp ▸ h]
    · simp [setA, hp, lookupA_cons, ih]

/-! ### Statistics-update lemmas -/

theorem bumpByName_totalSesiones (s : StudentStats) (name : String)
    (h : name ≠ "totalSesiones") :
    (StatisticsManager.bumpByName s name).totalSesiones = s.totalSesiones := by
  unfold StatisticsManager.bumpByName
  split_ifs <;> simp_all

theorem updatedStudent_totalSesiones (fecha : String) (cur : StudentStats) (d : StudentData)
    (h : d.estado ≠ "totalSesiones") :
    (StatisticsManager.updatedStudent fecha cur d).totalSesiones = cur.totalSesiones + 1 := by
  unfold StatisticsManager.updatedStudent
  split_ifs <;> simp [bumpByName_totalSesiones _ _ h]

theorem foldl_updateOneStudent_not_mem (fecha : String) (l : List (String × StudentData))
    (gs : List (String × StudentStats)) (n : String) (h : n ∉ l.map Prod.fst) :
    lookupA (l.foldl (StatisticsManager.updateOneStudent fecha) gs) n = lookupA gs n := by
  induction l generalizing gs with
  | nil => rfl
  | cons p rest ih =>
    simp only [List.map_cons, List.mem_cons, not_or] at h
    simp only [List.foldl_cons]
    rw [ih _ h.2]
    unfold StatisticsManager.updateOneStudent
    exact lookupA_setA_ne _ _ _ _ (fun he => h.1 he.symm)

theorem foldl_updateOneStudent_mem (fecha : String) (l : List (String × StudentData))
    (gs : List (String × StudentStats)) (n : String) (d : StudentData)
    (hnd : (l.map Prod.fst).Nodup) (hmem : (n, d) ∈ l) :
    lookupA (l.foldl (StatisticsManager.updateOneStudent fecha) gs) n =
      some (StatisticsManager.updatedStudent fecha
        ((lookupA gs n).getD StudentStats.init) d) := by
  induction l generalizing gs with
  | nil => cases hmem
  | cons p rest ih =>
    simp only [List.map_cons, List.nodup_cons] at hnd
    simp only [List.foldl_cons]
    rcases List.mem_cons.mp hmem with heq | hrest
    · subst heq
      rw [foldl_updateOneStudent_not_mem fecha rest _ n hnd.1]
      unfold StatisticsManager.updateOneStudent
      exact lookupA_setA_self _ _ _
    · have hp : p.1 ≠ n := by
        intro he
        exact hnd.1 (he ▸ List.mem_map_of_mem Prod.fst hrest)
      rw [ih _ hnd.2 hrest]
      unfold StatisticsManager.updateOneStudent
      rw [lookupA_setA_ne _ _ _ _ hp]

/-- The increment `updateFromSession` makes to one tracked student's
`totalSesiones` on a session record passing its guard. -/
theorem updateFromSession_statTotal (stats : StatsMap) (store : Store) (sd : SessionData)
    (l : List (String × StudentData)) (hst : sd.students = some l) (hg : ¬ sd.grupo = "")
    (hnd : (l.map Prod.fst).Nodup) (nombre : String) (d : StudentData)
    (hmem : (nombre, d) ∈ l) (hestado : d.estado ≠ "totalSesiones") :
    StatisticsManager.statTotal (StatisticsManager.updateFromSession stats store sd).1
        sd.grupo nombre
      = StatisticsManager.statTotal stats sd.grupo nombre + 1 := by
  unfold StatisticsManager.updateFromSession StatisticsManager.saveStatistics
  rw [hst]
  rw [if_neg (by simp [hg])]
  simp only [Option.getD_some]
  unfold StatisticsManager.statTotal
  rw [lookupA_setA_self]
  simp only [Option.getD_some]
  rw [foldl_updateOneStudent_mem sd.fecha l _ nombre d hnd hmem]
  simp only [Option.map_some', Option.getD_some]
  rw [updatedStudent_totalSesiones _ _ _ hestado]
  cases lookupA ((lookupA stats sd.grupo).getD []) nombre <;>
    simp [StudentStats.init]

/-! ### Claim C1 -/

/-- Counterexample to claim C1 as stated: starting from an empty store
and empty statistics with the 9A session open, saving, editing a
narrative field, and saving again leaves Ana Lopez's `totalSesiones` at
2 — the statistics update runs per save call, not once per distinct
session key. -/
theorem claim_C1_counterexample :
    StatisticsManager.statTotal stateAfterTwoSaves.stats "9A" "Ana Lopez" = 2
    ∧ ¬ StatisticsManager.statTotal stateAfterTwoSaves.stats "9A" "Ana Lopez" = 1 := by
  have h : StatisticsManager.statTotal stateAfterTwoSaves.stats "9A" "Ana Lopez" = 2 := by
    decide
  exact ⟨h, by rw [h]; decide⟩

/-- Claim C1 (amended): the statistics update triggered by save is per
save call, not idempotent per distinct saved session key — every
successful `saveSession` increments each current student's
`totalSesiones` by exactly 1, so saving the same session twice adds 2. -/
theorem claim_C1_amended (st : AppState) (cs : SessionData) (now nombre : String)
    (d : StudentData)
    (h : st.currentSession = some cs)
    (hg : ¬ cs.grupo = "")
    (hnd : (st.currentStudents.map Prod.fst).Nodup)
    (hmem : (nombre, d) ∈ st.currentStudents)
    (hestado : d.estado ≠ "totalSesiones") :
    StatisticsManager.statTotal ((SessionManager.saveSession st now).1).stats cs.grupo nombre
      = StatisticsManager.statTotal st.stats cs.grupo nombre + 1
    ∧ (SessionManager.saveSession st now).2 = true := by
  unfold SessionManager.saveSession
  rw [h]
  refine ⟨?_, rfl⟩
  exact updateFromSession_statTotal st.stats _
    { cs with students := some st.currentStudents, lastSaved := some now }
    st.currentStudents rfl hg hnd nombre d hmem hestado

/-- Witness for the amended C1 at the concrete demo state. -/
theorem claim_C1_witness :
    StatisticsManager.statTotal ((SessionManager.saveSession demoState "t1").1).stats
        demoSession.grupo "Ana Lopez"
      = StatisticsManager.statTotal demoState.stats demoSession.grupo "Ana Lopez" + 1
    ∧ (SessionManager.saveSession demoState "t1").2 = true :=
  claim_C1_amended demoState demoSession "t1" "Ana Lopez" demoStudent rfl (by decide)
    (by decide) (by decide) (by decide)

/-! ### Claim C2 -/

/-- Counterexample to claim C2 as stated: `updateFromSession` (run on
every save) writes the accumulated statistics to the persistent store —
after one update of an initially empty store, the `statistics` key is
present. -/
theorem claim_C2_counterexample :
    lookupA ([] : Store) "statistics" = none
    ∧ lookupA (StatisticsManager.updateFromSession [] [] demoSession).2.1 "statistics" ≠ none :=
  ⟨rfl, by decide⟩

/-- Claim C2 (amended): statistics are an incrementally accumulated
state persisted under the `statistics` key — every `updateFromSession`
that passes its guard writes the full in-memory table to the store via
`saveStatistics`, and reading statistics returns that accumulated state
rather than recomputing from stored sessions. -/
theorem claim_C2_amended (stats : StatsMap) (store : Store) (sd : SessionData)
    (hg : ¬ sd.grupo = "") (hs : sd.students ≠ none) :
    lookupA (StatisticsManager.updateFromSession stats store sd).2.1 "statistics"
      = some (.statsData (StatisticsManager.updateFromSession stats store sd).1) := by
  unfold StatisticsManager.updateFromSession StatisticsManager.saveStatistics
  simp [hg, hs, lookupA_setA_self]

/-- Witness for the amended C2 at the concrete demo session. -/
theorem claim_C2_witness :
    lookupA (StatisticsManager.updateFromSession [] [] demoSession).2.1 "statistics"
      = some (.statsData (StatisticsManager.updateFromSession [] [] demoSession).1) :=
  claim_C2_amended [] [] demoSession (by decide) (by decide)

/-! ### Claim C6 -/

/-- Counterexample to claim C6 as stated: a session record with a group
and students but a `null` `lastSaved` (never saved) is NOT skipped by
the statistics computation — `updateFromSession` counts it and returns
`true`. -/
theorem claim_C6_counterexample :
    demoSession.lastSaved = none
    ∧ (StatisticsManager.updateFromSession [] [] demoSession).2.2 = true
    ∧ StatisticsManager.statTotal (StatisticsManager.updateFromSession [] [] demoSession).1
        "9A" "Ana Lopez" = 1 :=
  ⟨rfl, by decide, by decide⟩

/-- Claim C6 (amended): `updateFromSession` skips (returns `false`,
mutating nothing) exactly the session records whose `grupo` is
missing/empty or whose `students` mapping is missing; `lastSaved` is
never consulted, so a qualifying record increments each student's
`totalSesiones` by 1 whatever its `lastSaved` is. -/
theorem claim_C6_amended (stats : StatsMap) (store : Store) (sd : SessionData) :
    (sd.grupo = "" ∨ sd.students = none →
      StatisticsManager.updateFromSession stats store sd = (stats, store, false))
    ∧ (∀ l, sd.students = some l → ¬ sd.grupo = "" →
        (l.map Prod.fst).Nodup →
        ∀ nombre d, (nombre, d) ∈ l → d.estado ≠ "totalSesiones" →
        StatisticsManager.statTotal (StatisticsManager.updateFromSession stats store sd).1
            sd.grupo nombre
          = StatisticsManager.statTotal stats sd.grupo nombre + 1) := by
  constructor
  · intro h
    unfold StatisticsManager.updateFromSession
    rcases h with h | h <;> simp [h]
  · intro l hst hg hnd nombre d hmem hestado
    exact updateFromSession_statTotal stats store sd l hst hg hnd nombre d hmem hestado

/-- Witness for the amended C6: the guard rejects a group-less record,
and the demo session (with `lastSaved = null`) is counted. -/
theorem claim_C6_witness :
    StatisticsManager.updateFromSession [] [] { demoSession with grupo := "" } =
      ([], [], false)
    ∧ StatisticsManager.statTotal (StatisticsManager.updateFromSession [] [] demoSession).1
          demoSession.grupo "Ana Lopez"
        = StatisticsManager.statTotal [] demoSession.grupo "Ana Lopez" + 1 :=
  ⟨(claim_C6_amended [] [] { demoSession with grupo := "" }).1 (Or.inl rfl),
   (claim_C6_amended [] [] demoSession).2 [("Ana Lopez", demoStudent)] rfl (by decide)
     (by decide) "Ana Lopez" demoStudent (by decide) (by decide)⟩

/-! ### Claim C3 -/

/-- Counterexample to claim C3 as stated: importing
`{9A: ["Ana Lopez", "J"]}` (one valid name, one invalid) commits
nothing — `importGroups` rejects the whole import and returns `false`,
even though the validator collected the valid name in `validGroups` and
an error identifying the invalid entry. -/
theorem claim_C3_counterexample :
    (Validators.validateImportedGroups importMixed).validGroups = [("9A", ["Ana Lopez"])]
    ∧ (Validators.validateImportedGroups importMixed).errors ≠ []
    ∧ StudentManager.importGroups emptyState importMixed = (emptyState, false) :=
  ⟨by decide, by decide, by decide⟩

/-- Claim C3 (amended): an import containing any invalid group or
student entry is rejected as a whole — `importGroups` commits nothing
and returns `false` (the collected error list identifies each invalid
student by group and position); only an import with no errors at all
replaces the registry, committing the validator's per-group valid
student lists. -/
theorem claim_C3_amended (st : AppState) (data : GroupsMap) :
    ((Validators.validateImportedGroups data).valid = false →
      StudentManager.importGroups st data = (st, false))
    ∧ ((Validators.validateImportedGroups data).valid = true →
      StudentManager.importGroups st data =
        ({ st with groups := (Validators.validateImportedGroups data).validGroups,
                   store := setA st.store "groups"
                     (.groupsData (Validators.validateImportedGroups data).validGroups) },
         true)) := by
  unfold StudentManager.importGroups StudentManager.saveGroups
  exact ⟨fun h => by simp [h], fun h => by simp [h]⟩

/-- Witness for the amended C3: the mixed import is rejected wholesale;
a fully valid import is committed. -/
theorem claim_C3_witness :
    StudentManager.importGroups emptyState importMixed = (emptyState, false)
    ∧ StudentManager.importGroups emptyState [("9A", ["Ana Lopez"])] =
        ({ emptyState with
             groups := (Validators.validateImportedGroups [("9A", ["Ana Lopez"])]).validGroups,
             store := setA emptyState.store "groups"
               (.groupsData
                 (Validators.validateImportedGroups [("9A", ["Ana Lopez"])]).validGroups) },
         true) :=
  ⟨(claim_C3_amended emptyState importMixed).1 (by decide),
   (claim_C3_amended emptyState [("9A", ["Ana Lopez"])]).2 (by decide)⟩

/-! ### Claim C4 -/

/-- Counterexample to claim C4 as stated: the group's current roster is
Ana Lopez and Beto Diaz, but a previously saved session under the same
(group, date) stores the single student Carlos Ruiz; `createSession`
succeeds and the resulting session's student set is the stored one —
storage wins, not the newest roster. -/
theorem claim_C4_counterexample :
    lookupA stateOldRoster.groups "9A" = some ["Ana Lopez", "Beto Diaz"]
    ∧ (SessionManager.createSession (fun _ => true) stateOldRoster
         "9A" "2024-03-01" "08:00" "id1" "t2").2 = true
    ∧ ((SessionManager.createSession (fun _ => true) stateOldRoster
         "9A" "2024-03-01" "08:00" "id1" "t2").1.currentSession.map
        (fun s => (s.students.getD []).map Prod.fst)) = some ["Carlos Ruiz"] :=
  ⟨by decide, by decide, by decide⟩

/-- Claim C4 (amended): when a previously persisted session with
non-null `lastSaved` exists under `session_{group}_{date}`, the
`{ ...fresh, ...saved }` merge resurrects the stored session wholesale —
every field, including the student set, comes from storage, discarding
the freshly initialised roster snapshot — and the stored students
(cleaned) become the current student state. -/
theorem claim_C4_amended (dateOk : String → Bool) (st : AppState)
    (grupo fecha startTime newId now : String) (g f t : String) (saved : SessionData)
    (hg : Validators.validateGroup grupo = .ok g)
    (hf : Validators.validateDate dateOk fecha = .ok f)
    (ht : Validators.validateTime startTime = .ok t)
    (hs : storeGetSession st.store (SessionManager.sessionKey g f) = some saved)
    (hl : SessionManager.truthyStr saved.lastSaved = true) :
    SessionManager.createSession dateOk st grupo fecha startTime newId now =
      ({ st with currentSession := some saved,
                 currentStudents :=
                   StudentManager.loadStudentsData (saved.students.getD []),
                 isDirty := false }, true) := by
  unfold SessionManager.createSession
  rw [hg, hf, ht]
  simp [hs, hl]

/-- Witness for the amended C4 at the concrete stored-roster state. -/
theorem claim_C4_witness :
    SessionManager.createSession (fun _ => true) stateOldRoster
        "9A" "2024-03-01" "08:00" "id1" "t2" =
      ({ stateOldRoster with
           currentSession := some storedOldRoster,
           currentStudents :=
             StudentManager.loadStudentsData (storedOldRoster.students.getD []),
           isDirty := false }, true) :=
  claim_C4_amended (fun _ => true) stateOldRoster "9A" "2024-03-01" "08:00" "id1" "t2"
    "9A" "2024-03-01" "08:00" storedOldRoster (by decide) (by decide) (by decide)
    (by decide) (by decide)

/-! ### Claim C5 -/

/-- Counterexample to claim C5 as stated: `"Garbage"` is not among any
evaluation field's enumerated options, yet
`updateField("evaluation.classMaterials", "Garbage")` succeeds, stores
the value into the evaluation record, and marks the session dirty — the
value is never checked against the options. -/
theorem claim_C5_counterexample :
    ("Garbage" ∉ CONFIG.EVALUATION_AGREEMENT
      ∧ "Garbage" ∉ CONFIG.EVALUATION_QUALITY
      ∧ "Garbage" ∉ CONFIG.EVALUATION_TIME)
    ∧ (SessionManager.updateSessionField demoState
        "evaluation.classMaterials" "Garbage").2 = true
    ∧ ((SessionManager.updateSessionField demoState
          "evaluation.classMaterials" "Garbage").1.currentSession.map
        (fun s => s.evaluation.classMaterials)) = some "Garbage"
    ∧ (SessionManager.updateSessionField demoState
        "evaluation.classMaterials" "Garbage").1.isDirty = true :=
  ⟨by decide, by decide, by decide, by decide⟩

/-- Claim C5 (amended): an `evaluation.*` update is rejected (returns
`false`, state unchanged) exactly when the dotted subfield name is not a
field of the evaluation record; when it is, ANY value — enumerated
option or not — is accepted after sanitization (trim, clamp to 50
characters), the subfield is overwritten and the session is marked
dirty. -/
theorem claim_C5_amended (st : AppState) (cs : SessionData) (field value : String)
    (h : st.currentSession = some cs)
    (h1 : SessionManager.textFields.contains field = false)
    (h2 : field ≠ "activityTime")
    (h3 : startsWithStr field "evaluation." = true) :
    (SessionManager.evalFieldNames.contains
        (String.mk (((splitChar '.' field.data).drop 1).headD [])) = true →
      SessionManager.updateSessionField st field value =
        ({ st with
             currentSession :=
               some { cs with
                        evaluation :=
                          SessionManager.setEvalField cs.evaluation
                            (String.mk (((splitChar '.' field.data).drop 1).headD []))
                            (SecurityUtils.sanitizeInput value 50) },
             isDirty := true }, true))
    ∧ (SessionManager.evalFieldNames.contains
        (String.mk (((splitChar '.' field.data).drop 1).headD [])) = false →
      SessionManager.updateSessionField st field value = (st, false)) := by
  unfold SessionManager.updateSessionField
  simp only [h]
  constructor
  · intro hin
    rw [if_neg (fun hc => Bool.false_ne_true (h1 ▸ hc)), if_neg h2, if_pos h3, if_pos hin]
  · intro hout
    rw [if_neg (fun hc => Bool.false_ne_true (h1 ▸ hc)), if_neg h2, if_pos h3,
      if_neg (fun hc => Bool.false_ne_true (hout ▸ hc))]

/-- Witness for the amended C5: the off-options value `"Garbage"` is
accepted into `evaluation.classMaterials` at the demo state. -/
theorem claim_C5_witness :
    SessionManager.updateSessionField demoState "evaluation.classMaterials" "Garbage" =
      ({ demoState with
           currentSession :=
             some { demoSession with
                      evaluation :=
                        SessionManager.setEvalField demoSession.evaluation
                          (String.mk (((splitChar '.'
                            ("evaluation.classMaterials" : String).data).drop 1).headD []))
                          (SecurityUtils.sanitizeInput "Garbage" 50) },
           isDirty := true }, true) :=
  (claim_C5_amended demoState demoSession "evaluation.classMaterials" "Garbage" rfl
    (by decide) (by decide) (by decide)).1 (by decide)

/-! ### Claim C7 -/

theorem length_mk_chars (l : List Char) : (String.mk l).length = l.length := by
  simp [String.length]

theorem bigStoredVal_length : bigStoredVal.length = 5242857 := by
  show (String.mk (List.replicate 5242857 'a')).length = 5242857
  rw [length_mk_chars, List.length_replicate]

/-- Size of a one-entry store under the app namespace, stated for an
opaque value of known length. -/
theorem storage_size_one (v : String) (h : v.length = 5242857) :
    StorageService.getStorageSize { avail := true, entries := [("bitacora_v2_x", v)] }
      = 5242870 := by
  have hsw : startsWithStr "bitacora_v2_x" CONFIG.STORAGE_NS = true := by decide
  have h13 : ("bitacora_v2_x" : String).length = 13 := by decide
  unfold StorageService.getStorageSize
  simp [hsw, h13, h]

theorem nearFullStorage_size : StorageService.getStorageSize nearFullStorage = 5242870 := by
  show StorageService.getStorageSize
    { avail := true, entries := [("bitacora_v2_x", bigStoredVal)] } = 5242870
  exact storage_size_one bigStoredVal bigStoredVal_length

/-- The success branch of `StorageService.set` on available storage with
space: the write happens and `true` is returned. -/
theorem set_ok_of_hasSpace (st : RawStorage) (key : String) (value : Json)
    (h : st.avail = true) (hs : StorageService.hasSpace st (Json.serialize value) = true) :
    StorageService.set st key value =
      .ok ({ st with
               entries := setA st.entries
                 (SecurityUtils.sanitizeAttribute (CONFIG.STORAGE_NS ++ key))
                 (Json.serialize value) }, true) := by
  unfold StorageService.set
  simp [h, hs]

/-- The failure branch of `StorageService.set` on available storage
without space: nothing is written and `false` is returned. -/
theorem set_false_of_not_hasSpace (st : RawStorage) (key : String) (value : Json)
    (h : st.avail = true) (hs : StorageService.hasSpace st (Json.serialize value) = false) :
    StorageService.set st key value = .ok (st, false) := by
  unfold StorageService.set
  simp [h, hs]

/-- The C7 divergence, stated for an opaque stored value of known
length: the claim's prospective total exceeds the cap, yet `set`
accepts and writes. -/
theorem set_overflow_divergence (v : String) (h : v.length = 5242857) :
    CONFIG.MAX_STORAGE_SIZE <
      StorageService.specProspectiveSize
        { avail := true, entries := [("bitacora_v2_x", v)] } longKey (Json.num 0)
    ∧ StorageService.setOutcome
        (StorageService.set { avail := true, entries := [("bitacora_v2_x", v)] }
          longKey (Json.num 0)) =
      some ({ avail := true,
              entries := [("bitacora_v2_x", v),
                          ("bitacora_v2_kkkkkkkkkkkkkkkkkkkk", "0")] }, true) := by
  have hkey : SecurityUtils.sanitizeAttribute (CONFIG.STORAGE_NS ++ longKey)
      = "bitacora_v2_kkkkkkkkkkkkkkkkkkkk" := by decide
  have hklen : ("bitacora_v2_kkkkkkkkkkkkkkkkkkkk" : String).length = 32 := by decide
  have hser : Json.serialize (Json.num 0) = "0" := by decide
  have h1 : ("0" : String).length = 1 := by decide
  have hstr : (Json.serialize (Json.str "0")).length = 3 := by decide
  have hsize := storage_size_one v h
  constructor
  · unfold StorageService.specProspectiveSize
    rw [hsize, hkey, hklen, hser, h1]
    norm_num [CONFIG.MAX_STORAGE_SIZE]
  · have hspace : StorageService.hasSpace { avail := true, entries := [("bitacora_v2_x", v)] }
        (Json.serialize (Json.num 0)) = true := by
      rw [hser]
      unfold StorageService.hasSpace
      rw [hsize, hstr]
      rfl
    rw [set_ok_of_hasSpace _ longKey (Json.num 0) rfl hspace]
    rfl

/-- Counterexample to claim C7 as stated: with 5242870 bytes of
namespaced data already stored, setting a fresh 20-character key to the
number `0` has a prospective total of 5242903 bytes by the claim's
formula (which counts the new namespaced key's length) — over the
5242880-byte cap, so the claim requires `set` to return `false` and
write nothing — yet `set` accepts and writes: its actual check ignores
the new key's length and compares `getStorageSize()` plus the
double-serialized value against the cap. -/
theorem claim_C7_counterexample :
    CONFIG.MAX_STORAGE_SIZE <
      StorageService.specProspectiveSize nearFullStorage longKey (Json.num 0)
    ∧ StorageService.setOutcome (StorageService.set nearFullStorage longKey (Json.num 0)) =
        some ({ avail := true,
                entries := [("bitacora_v2_x", bigStoredVal),
                            ("bitacora_v2_kkkkkkkkkkkkkkkkkkkk", "0")] }, true) :=
  set_overflow_divergence bigStoredVal bigStoredVal_length

/-- Claim C7 (amended): on available storage, `set` returns `false` and
writes nothing exactly when `getStorageSize()` plus the length of the
JSON re-serialization of the already-serialized value reaches the 5 MiB
cap — the check runs before the write, but it ignores the new key's
length, double-serializes the value, and fires at ≥ cap rather than
> cap; otherwise `set` writes the serialized value under the sanitized
namespaced key and returns `true` (unavailable storage makes `set`
throw). -/
theorem claim_C7_amended (st : RawStorage) (key : String) (value : Json)
    (h : st.avail = true) :
    (StorageService.hasSpace st (Json.serialize value) = false →
      StorageService.setOutcome (StorageService.set st key value) = some (st, false))
    ∧ (StorageService.hasSpace st (Json.serialize value) = true →
      StorageService.setOutcome (StorageService.set st key value) =
        some ({ st with
                  entries := setA st.entries
                    (SecurityUtils.sanitizeAttribute (CONFIG.STORAGE_NS ++ key))
                    (Json.serialize value) }, true)) :=
  ⟨fun hs => by rw [set_false_of_not_hasSpace st key value h hs]; rfl,
   fun hs => by rw [set_ok_of_hasSpace st key value h hs]; rfl⟩

/-- Witness for the amended C7: a small write into empty available
storage passes the space check and is stored. -/
theorem claim_C7_witness :
    StorageService.setOutcome
        (StorageService.set { avail := true, entries := [] } "k" (Json.num 0)) =
      some ({ avail := true,
              entries :=
                setA []
                  (SecurityUtils.sanitizeAttribute (CONFIG.STORAGE_NS ++ "k"))
                  (Json.serialize (Json.num 0)) }, true) :=
  (claim_C7_amended { avail := true, entries := [] } "k" (Json.num 0) rfl).2 (by decide)

/-! ### Claim C8 -/

/-- Claim C8: for every (group, date), if the stored session under key
`session_{group}_{date}` is missing or fails structural validation,
`loadSession` returns an error (`false`) and the current in-memory
session and student state are left completely unchanged; only on
successful validation does it replace the current session and student
state. -/
theorem claim_C8 (dateOk : String → Bool) (st : AppState) (grupo fecha : String) :
    (storeGetSession st.store (SessionManager.sessionKey grupo fecha) = none →
      SessionManager.loadSession dateOk st grupo fecha = (st, false))
    ∧ (∀ saved, storeGetSession st.store (SessionManager.sessionKey grupo fecha) = some saved →
        ((Validators.validateSessionData dateOk saved).valid = false →
          SessionManager.loadSession dateOk st grupo fecha = (st, false))
        ∧ ((Validators.validateSessionData dateOk saved).valid = true →
          SessionManager.loadSession dateOk st grupo fecha =
            ({ st with currentSession := some saved,
                       currentStudents :=
                         StudentManager.loadStudentsData (saved.students.getD []),
                       isDirty := false }, true))) := by
  unfold SessionManager.loadSession
  refine ⟨fun h => by simp [h], fun saved hs => ⟨fun hv => ?_, fun hv => ?_⟩⟩ <;>
    simp [hs, hv]

/-- Witness for C8: loading from an empty store fails and leaves the
state unchanged. -/
theorem claim_C8_witness :
    SessionManager.loadSession (fun _ => true) emptyState "9A" "2024-03-01" =
      (emptyState, false) :=
  (claim_C8 (fun _ => true) emptyState "9A" "2024-03-01").1 rfl

/-! ### Claim C9 -/

/-- Claim C9: the group summary's average attendance percentage equals
`totalPresentes / (totalEstudiantes * totalSesiones) * 100` (computed in
ℚ, so neither NaN nor a division by zero can occur) whenever both counts
are nonzero, and is exactly 0 when the group has no students or no
sessions. -/
theorem claim_C9 (g : List (String × StudentStats)) :
    ((StatisticsManager.calculateGroupSummary g).totalEstudiantes ≠ 0 ∧
       (StatisticsManager.calculateGroupSummary g).totalSesiones ≠ 0 →
      (StatisticsManager.calculateGroupSummary g).promedioAsistencia =
        ((StatisticsManager.calculateGroupSummary g).totalPresentes : ℚ) /
          (((StatisticsManager.calculateGroupSummary g).totalEstudiantes *
              (StatisticsManager.calculateGroupSummary g).totalSesiones : Nat) : ℚ) * 100)
    ∧ ((StatisticsManager.calculateGroupSummary g).totalEstudiantes = 0 ∨
         (StatisticsManager.calculateGroupSummary g).totalSesiones = 0 →
      (StatisticsManager.calculateGroupSummary g).promedioAsistencia = 0) := by
  unfold StatisticsManager.calculateGroupSummary
  by_cases hg : g.isEmpty
  · simp [hg, StatisticsManager.getEmptyGroupSummary]
  · simp only [hg, Bool.false_eq_true, if_false]
    constructor
    · rintro ⟨h1, h2⟩
      rw [if_pos (Nat.pos_of_ne_zero (Nat.mul_ne_zero h1 h2))]
    · intro h
      have : ¬ g.length * List.foldl (fun m p => max m p.2.totalSesiones) 0 g > 0 := by
        rcases h with h | h <;> simp [h]
      rw [if_neg this]

/-- Witness for C9: one student present in the single recorded session
gives a 100% average, and the empty group gives 0. -/
theorem claim_C9_witness :
    (StatisticsManager.calculateGroupSummary oneStudentStats).promedioAsistencia = 100
    ∧ (StatisticsManager.calculateGroupSummary []).promedioAsistencia = 0 := by
  constructor
  · have h := (claim_C9 oneStudentStats).1 ⟨by decide, by decide⟩
    rw [h]
    norm_num [oneStudentStats, StatisticsManager.calculateGroupSummary]
  · exact (claim_C9 []).2 (Or.inl (by decide))

/-! ### Claim C10 -/

/-- Claim C10: for every key and default value, `StorageService.get`
never throws — it is a total function that returns the default when
storage is unavailable, when no entry exists under the namespaced key,
or when the stored string fails to parse (a `JSON.parse` exception,
caught); otherwise it returns the parsed stored value. -/
theorem claim_C10 (parse : String → Option Json) (st : RawStorage) (key : String) (d : Json) :
    (st.avail = false → StorageService.get parse st key d = d)
    ∧ (lookupA st.entries (SecurityUtils.sanitizeAttribute (CONFIG.STORAGE_NS ++ key)) = none →
        StorageService.get parse st key d = d)
    ∧ (st.avail = true →
        ∀ item,
          lookupA st.entries (SecurityUtils.sanitizeAttribute (CONFIG.STORAGE_NS ++ key)) =
            some item →
          (parse item = none → StorageService.get parse st key d = d)
          ∧ (∀ v, parse item = some v → StorageService.get parse st key d = v)) := by
  unfold StorageService.get
  refine ⟨fun h => by simp [h], fun h => ?_,
          fun ha item hit => ⟨fun hp => ?_, fun v hp => ?_⟩⟩
  · by_cases ha : st.avail <;> simp [ha, h]
  · simp [ha, hit, hp]
  · simp [ha, hit, hp]

/-- Witness for C10: unavailable storage, and an available store whose
entry fails to parse, both yield the default. -/
theorem claim_C10_witness :
    StorageService.get (fun _ => none) { avail := false, entries := [] } "k" Json.null =
      Json.null
    ∧ StorageService.get (fun _ => none)
        { avail := true, entries := [("bitacora_v2_k", "corrupt")] } "k" Json.null =
      Json.null := by
  constructor
  · exact (claim_C10 (fun _ => none) { avail := false, entries := [] } "k" Json.null).1 rfl
  · exact ((claim_C10 (fun _ => none)
        { avail := true, entries := [("bitacora_v2_k", "corrupt")] } "k" Json.null).2.2
        rfl "corrupt" (by decide)).1 rfl

end Bitacora
